import Mathlib

/-!
Verification of the ownership-gated key/value store contract
(ExampleContract in src/src/lib.rs): the entry points change_val
(write_as_caller), use_sig (write_with_signature) and get (read),
shallowly embedded over an explicit environment state.

The storage engine, the invoker resolver and the cryptographic
signature verifier are external collaborators of the contract; they
are embedded here through the narrow interfaces the contract consumes
(an association-list store, an invoker field of the environment, and a
verification oracle passed as a parameter).
-/

namespace SorobanKV

/-- Keys are opaque byte sequences (soroban_sdk Bytes). -/
abbrev Bytes := List Nat

/-- soroban_auth Identifier: a tagged principal. Two identifiers are
equal iff their tag and underlying id match. -/
inductive Identifier where
  | Account : Nat → Identifier
  | Contract : Nat → Identifier
  | Ed25519 : Nat → Identifier
deriving DecidableEq, Repr

/-- soroban_sdk Address, as returned by e.invoker(): the invoking
entity is either an account or a contract. -/
inductive Address where
  | Account : Nat → Address
  | Contract : Nat → Address
deriving DecidableEq, Repr

/-- The conversion performed inline in change_val: an invoking Address
becomes the corresponding Identifier. -/
def invokerId : Address → Identifier
  | .Account id => .Account id
  | .Contract id => .Contract id

/-- Modelled from the spec: soroban_auth Signature (the crate itself is
outside this repository). Either the marker meaning "use the implicit
current caller", or an explicit cryptographic signature object carrying
the signer public key and the signature data. -/
inductive Signature where
  | Invoker : Signature
  | Ed25519 : Nat → Nat → Signature
deriving DecidableEq, Repr

/-- First-match lookup in the association-list store, the embedding of
e.data().get(key). -/
def lookupEntry : List (Bytes × Identifier) → Bytes → Option Identifier
  | [], _ => none
  | (k, v) :: t, key => if k = key then some v else lookupEntry t key

/-- Overwrite-or-append update, the embedding of e.data().set(key, v). -/
def setEntry : List (Bytes × Identifier) → Bytes → Identifier → List (Bytes × Identifier)
  | [], key, v => [(key, v)]
  | (k, w) :: t, key, v => if k = key then (key, v) :: t else (k, w) :: setEntry t key v

/-- The state the contract observes: the persistent key/value store,
the invoker reported by the host, and the executing contract's id. -/
structure Env where
  store : List (Bytes × Identifier)
  invoker : Address
  currentContract : Nat
deriving DecidableEq, Repr

/-- e.data().get(key). -/
def Env.dataGet (e : Env) (key : Bytes) : Option Identifier :=
  lookupEntry e.store key

/-- e.data().set(key, v): the single mutation the contract performs. -/
def Env.dataSet (e : Env) (key : Bytes) (v : Identifier) : Env :=
  { e with store := setEntry e.store key v }

/-- Identifier::Contract(e.current_contract()), the self-identity
sentinel that stands for an unclaimed key. -/
def Env.selfId (e : Env) : Identifier :=
  .Contract e.currentContract

/-- The contract's failure modes. Each Rust panic site is mapped to the
typed error the spec names for it. -/
inductive Err where
  | NotAuthorized : Err
  | InvalidSignature : Err
  | KeyNotFound : Err
deriving DecidableEq, Repr

/-- Modelled from the spec: the signer identity derivable from a
Signature, soroban_auth sig.identifier(&e) (the crate is outside this
repository). For the invoker marker it is the current invoking
entity's identity; for an explicit signature it is the identity
embedded in the signature. -/
def Signature.identifier (s : Signature) (e : Env) : Identifier :=
  match s with
  | .Invoker => invokerId e.invoker
  | .Ed25519 pk _ => .Ed25519 pk

/-- The external cryptographic verification primitive, abstracted as an
oracle: given public key, signature data, operation tag and the signed
fields (key, new identity), decide whether the signature verifies. -/
abbrev VerifyOracle := Nat → Nat → String → Bytes → Identifier → Bool

/-- Modelled from the spec: soroban_auth verify(&e, &sig, tag, args)
(the crate is outside this repository). The invoker marker needs no
cryptographic check; an explicit signature is checked by the external
verifier. -/
def verifySig (ver : VerifyOracle) (s : Signature) (tag : String)
    (key : Bytes) (value : Identifier) : Bool :=
  match s with
  | .Invoker => true
  | .Ed25519 pk sd => ver pk sd tag key value

/-- The fixed operation tag symbol!("change") passed to verify. -/
def changeSymbol : String := "change"

/-- ExampleContract::change_val (write_as_caller). A failing branch is
a panic in the source: the host aborts the operation and discards any
mutation, so the error result carries no environment. -/
def change_val (e : Env) (key : Bytes) (value : Identifier) : Except Err Env :=
  let stored_addr := (e.dataGet key).getD e.selfId
  if stored_addr = e.selfId then
    .ok (e.dataSet key value)
  else
    let invoker_id := invokerId e.invoker
    if stored_addr ≠ invoker_id then
      .error .NotAuthorized
    else
      .ok (e.dataSet key value)

/-- ExampleContract::use_sig (write_with_signature), parametrised by
the external verification oracle. -/
def use_sig (ver : VerifyOracle) (e : Env) (s : Signature) (key : Bytes)
    (value : Identifier) : Except Err Env :=
  let stored_addr := (e.dataGet key).getD e.selfId
  if stored_addr = e.selfId then
    .ok (e.dataSet key value)
  else
    if stored_addr ≠ s.identifier e then
      .error .NotAuthorized
    else if verifySig ver s changeSymbol key value then
      .ok (e.dataSet key value)
    else
      .error .InvalidSignature

/-- ExampleContract::get (read). The panic on an absent key is the
KeyNotFound failure. -/
def get (e : Env) (key : Bytes) : Except Err Identifier :=
  match e.dataGet key with
  | some v => .ok v
  | none => .error .KeyNotFound

/-- The exact success condition of change_val read off its guards: the
key is unclaimed (or holds the self sentinel), or the stored owner is
the invoker. -/
def callerAuthorized (e : Env) (k : Bytes) : Prop :=
  (e.dataGet k).getD e.selfId = e.selfId ∨
    (e.dataGet k).getD e.selfId = invokerId e.invoker

instance (e : Env) (k : Bytes) : Decidable (callerAuthorized e k) := by
  unfold callerAuthorized; infer_instance

theorem lookup_setEntry_self (s : List (Bytes × Identifier)) (k : Bytes) (v : Identifier) :
    lookupEntry (setEntry s k v) k = some v := by
  induction s with
  | nil => simp [setEntry, lookupEntry]
  | cons hd t ih =>
    obtain ⟨k₀, w⟩ := hd
    by_cases h : k₀ = k
    · simp [setEntry, lookupEntry, h]
    · simp [setEntry, lookupEntry, h, ih]

theorem setEntry_idem (s : List (Bytes × Identifier)) (k : Bytes) (v : Identifier) :
    setEntry (setEntry s k v) k v = setEntry s k v := by
  induction s with
  | nil => simp [setEntry]
  | cons hd t ih =>
    obtain ⟨k₀, w⟩ := hd
    by_cases h : k₀ = k
    · simp [setEntry, h]
    · simp [setEntry, h, ih]

theorem change_val_ok_of_authorized (e : Env) (k : Bytes) (v : Identifier)
    (h : callerAuthorized e k) :
    change_val e k v = .ok (e.dataSet k v) := by
  rcases h with h | h
  · simp [change_val, h]
  · by_cases hs : (e.dataGet k).getD e.selfId = e.selfId
    · simp [change_val, hs]
    · simp [change_val, hs, h]

/-- Concrete environments and oracles used by the witnesses. -/
def envOwned : Env :=
  { store := [([0], Identifier.Account 1)], invoker := Address.Account 2, currentContract := 0 }

def envEmpty : Env :=
  { store := [], invoker := Address.Account 2, currentContract := 0 }

def envSentinel : Env :=
  { store := [([0], Identifier.Contract 0)], invoker := Address.Account 2, currentContract := 0 }

def envEd : Env :=
  { store := [([0], Identifier.Ed25519 5)], invoker := Address.Account 2, currentContract := 0 }

def verAlways : VerifyOracle := fun _ _ _ _ _ => true

def verNever : VerifyOracle := fun _ _ _ _ _ => false

/-- C1: for a key owned by a stored identity A distinct from the contract's
self-identity, change_val invoked by an invoker different from A fails with
NotAuthorized and the stored entry is untouched, so a read still returns A. -/
theorem change_val_unauthorized_rejected (e : Env) (k : Bytes) (v A : Identifier)
    (hA : e.dataGet k = some A) (hself : A ≠ e.selfId)
    (hinv : invokerId e.invoker ≠ A) :
    change_val e k v = .error .NotAuthorized ∧ get e k = .ok A := by
  constructor
  · simp [change_val, hA, hself, Ne.symm hinv]
  · simp [get, hA]

theorem change_val_unauthorized_rejected_witness :
    envOwned.dataGet [0] = some (Identifier.Account 1) ∧
    Identifier.Account 1 ≠ envOwned.selfId ∧
    invokerId envOwned.invoker ≠ Identifier.Account 1 ∧
    (change_val envOwned [0] (Identifier.Account 2) = .error .NotAuthorized ∧
      get envOwned [0] = .ok (Identifier.Account 1)) :=
  ⟨by decide, by decide, by decide,
    change_val_unauthorized_rejected envOwned [0] (Identifier.Account 2)
      (Identifier.Account 1) (by decide) (by decide) (by decide)⟩

/-- C2: on a key with no stored entry, change_val succeeds for any invoker
and any identity, and a subsequent read returns that identity. -/
theorem change_val_unclaimed_claims (e : Env) (k : Bytes) (v : Identifier)
    (h : e.dataGet k = none) :
    change_val e k v = .ok (e.dataSet k v) ∧ get (e.dataSet k v) k = .ok v := by
  constructor
  · simp [change_val, h]
  · simp [get, Env.dataGet, Env.dataSet, lookup_setEntry_self]

theorem change_val_unclaimed_claims_witness :
    envEmpty.dataGet [0] = none ∧
    (change_val envEmpty [0] (Identifier.Ed25519 9) = .ok (envEmpty.dataSet [0] (Identifier.Ed25519 9)) ∧
      get (envEmpty.dataSet [0] (Identifier.Ed25519 9)) [0] = .ok (Identifier.Ed25519 9)) :=
  ⟨by decide, change_val_unclaimed_claims envEmpty [0] (Identifier.Ed25519 9) (by decide)⟩

/-- C3: on a key owned by stored identity A, change_val invoked with invoker
equal to A succeeds with any new identity v, and a subsequent read returns v. -/
theorem change_val_owner_updates (e : Env) (k : Bytes) (A v : Identifier)
    (hA : e.dataGet k = some A) (hinv : invokerId e.invoker = A) :
    change_val e k v = .ok (e.dataSet k v) ∧ get (e.dataSet k v) k = .ok v := by
  constructor
  · by_cases hs : A = e.selfId
    · simp [change_val, hA, hs]
    · simp [change_val, hA, hs, hinv.symm]
  · simp [get, Env.dataGet, Env.dataSet, lookup_setEntry_self]

theorem change_val_owner_updates_witness :
    envOwned.dataGet [0] = some (Identifier.Account 1) ∧
    invokerId (Address.Account 1) = Identifier.Account 1 ∧
    (change_val { envOwned with invoker := Address.Account 1 } [0] (Identifier.Account 7)
        = .ok ({ envOwned with invoker := Address.Account 1 }.dataSet [0] (Identifier.Account 7)) ∧
      get ({ envOwned with invoker := Address.Account 1 }.dataSet [0] (Identifier.Account 7)) [0]
        = .ok (Identifier.Account 7)) :=
  ⟨by decide, by decide,
    change_val_owner_updates { envOwned with invoker := Address.Account 1 } [0]
      (Identifier.Account 1) (Identifier.Account 7) (by decide) (by decide)⟩

/-- C4: on a key with no stored entry, use_sig succeeds unconditionally for
any signature and any invoker, sets the entry to the new identity, and its
result does not depend on the verification oracle (the verifier is never
consulted). -/
theorem use_sig_unclaimed_unconditional (ver : VerifyOracle) (e : Env) (s : Signature)
    (k : Bytes) (v : Identifier) (h : e.dataGet k = none) :
    use_sig ver e s k v = .ok (e.dataSet k v) ∧
    get (e.dataSet k v) k = .ok v ∧
    ∀ ver₂ : VerifyOracle, use_sig ver₂ e s k v = use_sig ver e s k v := by
  refine ⟨?_, ?_, ?_⟩
  · simp [use_sig, h]
  · simp [get, Env.dataGet, Env.dataSet, lookup_setEntry_self]
  · intro ver₂
    simp [use_sig, h]

theorem use_sig_unclaimed_unconditional_witness :
    envEmpty.dataGet [0] = none ∧
    (use_sig verNever envEmpty (Signature.Ed25519 3 4) [0] (Identifier.Account 9)
        = .ok (envEmpty.dataSet [0] (Identifier.Account 9)) ∧
      get (envEmpty.dataSet [0] (Identifier.Account 9)) [0] = .ok (Identifier.Account 9) ∧
      ∀ ver₂ : VerifyOracle, use_sig ver₂ envEmpty (Signature.Ed25519 3 4) [0] (Identifier.Account 9)
        = use_sig verNever envEmpty (Signature.Ed25519 3 4) [0] (Identifier.Account 9)) :=
  ⟨by decide,
    use_sig_unclaimed_unconditional verNever envEmpty (Signature.Ed25519 3 4) [0]
      (Identifier.Account 9) (by decide)⟩

/-- C5: on a claimed key whose stored owner differs from the signature's
signer identity, use_sig fails with NotAuthorized for every verification
oracle: the owner comparison decides the call before the verifier could
ever be consulted. -/
theorem use_sig_mismatch_rejected_before_verify (e : Env) (s : Signature)
    (k : Bytes) (v A : Identifier) (hA : e.dataGet k = some A)
    (hself : A ≠ e.selfId) (hsig : s.identifier e ≠ A) :
    ∀ ver : VerifyOracle, use_sig ver e s k v = .error .NotAuthorized := by
  intro ver
  simp [use_sig, hA, hself, Ne.symm hsig]

theorem use_sig_mismatch_rejected_before_verify_witness :
    envOwned.dataGet [0] = some (Identifier.Account 1) ∧
    Identifier.Account 1 ≠ envOwned.selfId ∧
    (Signature.Ed25519 3 4).identifier envOwned ≠ Identifier.Account 1 ∧
    use_sig verAlways envOwned (Signature.Ed25519 3 4) [0] (Identifier.Account 9)
      = .error .NotAuthorized :=
  ⟨by decide, by decide, by decide,
    use_sig_mismatch_rejected_before_verify envOwned (Signature.Ed25519 3 4) [0]
      (Identifier.Account 9) (Identifier.Account 1) (by decide) (by decide) (by decide)
      verAlways⟩

/-- C6: on a key owned by stored identity A, use_sig with a signature whose
signer identity equals A but which fails cryptographic verification fails
with InvalidSignature, and the stored entry is untouched, so a read still
returns A. -/
theorem use_sig_invalid_signature_rejected (ver : VerifyOracle) (e : Env) (s : Signature)
    (k : Bytes) (v A : Identifier) (hA : e.dataGet k = some A)
    (hsig : s.identifier e = A)
    (hver : verifySig ver s changeSymbol k v = false) :
    use_sig ver e s k v = .error .InvalidSignature ∧ get e k = .ok A := by
  cases s with
  | Invoker => simp [verifySig] at hver
  | Ed25519 pk sd =>
    have hA' : A = Identifier.Ed25519 pk := by
      simpa [Signature.identifier] using hsig.symm
    have hself : A ≠ e.selfId := by simp [hA', Env.selfId]
    constructor
    · simp [use_sig, hA, hself, hsig, hver]
    · simp [get, hA]

theorem use_sig_invalid_signature_rejected_witness :
    envEd.dataGet [0] = some (Identifier.Ed25519 5) ∧
    (Signature.Ed25519 5 7).identifier envEd = Identifier.Ed25519 5 ∧
    verifySig verNever (Signature.Ed25519 5 7) changeSymbol [0] (Identifier.Account 9) = false ∧
    (use_sig verNever envEd (Signature.Ed25519 5 7) [0] (Identifier.Account 9)
        = .error .InvalidSignature ∧
      get envEd [0] = .ok (Identifier.Ed25519 5)) :=
  ⟨by decide, by decide, by rfl,
    use_sig_invalid_signature_rejected verNever envEd (Signature.Ed25519 5 7) [0]
      (Identifier.Account 9) (Identifier.Ed25519 5) (by decide) (by decide) (by rfl)⟩

/-- C7: use_sig called with the invoker marker signature coincides with
change_val on every environment, key and new identity, for every
verification oracle: same successes, same NotAuthorized failures, same
final store. -/
theorem use_sig_invoker_eq_change_val (ver : VerifyOracle) (e : Env)
    (k : Bytes) (v : Identifier) :
    use_sig ver e Signature.Invoker k v = change_val e k v := by
  simp [use_sig, change_val, Signature.identifier, verifySig]

/-- C8: two successive change_val calls writing the same identity v, the
first by an authorized caller and the second by an invoker matching the
then-current owner v, both succeed, and the environment after the second
call is exactly the environment after the first. -/
theorem change_val_idempotent (e : Env) (k : Bytes) (v : Identifier) (i₂ : Address)
    (h1 : callerAuthorized e k) (h2 : invokerId i₂ = v) :
    change_val e k v = .ok (e.dataSet k v) ∧
    change_val { e.dataSet k v with invoker := i₂ } k v
      = .ok { e.dataSet k v with invoker := i₂ } := by
  refine ⟨change_val_ok_of_authorized e k v h1, ?_⟩
  have hstored : ({ e.dataSet k v with invoker := i₂ } : Env).dataGet k = some v := by
    simp [Env.dataGet, Env.dataSet, lookup_setEntry_self]
  have hok := change_val_ok_of_authorized { e.dataSet k v with invoker := i₂ } k v
    (Or.inr (by simp [hstored, h2]))
  rw [hok]
  simp [Env.dataSet, setEntry_idem]

theorem change_val_idempotent_witness :
    callerAuthorized envEmpty [0] ∧
    invokerId (Address.Account 3) = Identifier.Account 3 ∧
    (change_val envEmpty [0] (Identifier.Account 3)
        = .ok (envEmpty.dataSet [0] (Identifier.Account 3)) ∧
      change_val { envEmpty.dataSet [0] (Identifier.Account 3) with invoker := Address.Account 3 }
          [0] (Identifier.Account 3)
        = .ok { envEmpty.dataSet [0] (Identifier.Account 3) with invoker := Address.Account 3 }) :=
  ⟨by decide, by decide,
    change_val_idempotent envEmpty [0] (Identifier.Account 3) (Address.Account 3)
      (by decide) (by decide)⟩

/-- C9: get returns the stored identity whenever an entry is present,
including when the entry is the self-identity sentinel, and fails with
KeyNotFound when no entry exists; it is a pure function of the
environment and never mutates the store. -/
theorem get_total_spec (e : Env) (k : Bytes) :
    (∀ A, e.dataGet k = some A → get e k = .ok A) ∧
    (e.dataGet k = none → get e k = .error .KeyNotFound) := by
  constructor
  · intro A hA
    simp [get, hA]
  · intro h
    simp [get, h]

theorem get_total_spec_witness :
    envSentinel.dataGet [0] = some (Identifier.Contract 0) ∧
    get envSentinel [0] = .ok (Identifier.Contract 0) ∧
    envSentinel.dataGet [1] = none ∧
    get envSentinel [1] = .error .KeyNotFound :=
  ⟨by decide, (get_total_spec envSentinel [0]).1 (Identifier.Contract 0) (by decide),
    by decide, (get_total_spec envSentinel [1]).2 (by decide)⟩

/-- C10: an entry equal to the contract's own self-identity sentinel is
treated exactly like an unclaimed key: change_val succeeds for any invoker
and use_sig succeeds for any signature and any verification oracle, each
overwriting the entry with the requested identity, so writing the sentinel
relinquishes a key. -/
theorem self_sentinel_freely_claimable (ver : VerifyOracle) (e : Env) (s : Signature)
    (k : Bytes) (v : Identifier) (h : e.dataGet k = some e.selfId) :
    change_val e k v = .ok (e.dataSet k v) ∧
    use_sig ver e s k v = .ok (e.dataSet k v) := by
  constructor
  · simp [change_val, h]
  · simp [use_sig, h]

theorem self_sentinel_freely_claimable_witness :
    envSentinel.dataGet [0] = some envSentinel.selfId ∧
    (change_val envSentinel [0] (Identifier.Account 9)
        = .ok (envSentinel.dataSet [0] (Identifier.Account 9)) ∧
      use_sig verNever envSentinel (Signature.Ed25519 3 4) [0] (Identifier.Account 9)
        = .ok (envSentinel.dataSet [0] (Identifier.Account 9))) :=
  ⟨by decide,
    self_sentinel_freely_claimable verNever envSentinel (Signature.Ed25519 3 4) [0]
      (Identifier.Account 9) (by decide)⟩

end SorobanKV
